import Mathlib

/-
  Verification of `util/metricsutil/common.go` (tidb): keyspace-aware metrics
  registration. The Go file has two entry points, `RegisterMetrics` and
  `RegisterMetricsForBR`, a shared tail `registerMetrics`, and a retrying
  resolver `getKeyspaceMeta`. External collaborators (the pd metadata client,
  the retry driver `util.RunWithRetry`, the error classifiers and the
  keyspace-name emptiness predicate) live outside this file's source and are
  modelled from the spec where noted.
-/

namespace Metricsutil

/-- KeyspaceMeta: the record returned by the metadata service; the only field
the code consumes is the numeric identifier (`keyspaceMeta.GetId()`). -/
structure KeyspaceMeta where
  id : Nat
deriving Repr, DecidableEq

/-- Modelled from the spec: the failure classes of a metadata lookup. The two
retryable conditions ("backing metadata cluster not yet bootstrapped",
"keyspace does not exist (yet)") are distinguished constructors, matching the
classifiers `kvstore.IsNotBootstrappedError` / `kvstore.IsKeyspaceNotExistError`
used by the source; every other failure is `other`. -/
inductive PDError where
  | notBootstrapped
  | keyspaceNotExist
  | other (msg : String)
deriving Repr, DecidableEq

/-- Modelled from the spec: the retryability predicate — exactly the two listed
conditions are retryable (`IsNotBootstrappedError(err) || IsKeyspaceNotExistError(err)`). -/
def retryableErr : PDError → Bool
  | .notBootstrapped => true
  | .keyspaceNotExist => true
  | .other _ => false

/-- One response of `pdCli.LoadKeyspace`: either an error (meta discarded, the
source returns `nil, err`) or a possibly-nil `*keyspacepb.KeyspaceMeta`. -/
def PDResponse : Type := Except PDError (Option KeyspaceMeta)

instance : DecidableEq PDResponse := fun a b =>
  match a, b with
  | .ok x, .ok y =>
    if h : x = y then isTrue (by rw [h]) else isFalse (by intro hc; cases hc; exact h rfl)
  | .ok _, .error _ => isFalse (by intro hc; cases hc)
  | .error _, .ok _ => isFalse (by intro hc; cases hc)
  | .error x, .error y =>
    if h : x = y then isTrue (by rw [h]) else isFalse (by intro hc; cases hc; exact h rfl)

/-- Modelled from the spec: the fixed maximum attempt count of the retry
policy (`util.DefaultMaxRetries`, not under src/). -/
def DefaultMaxRetries : Nat := 30

/-- Modelled from the spec: the fixed inter-attempt delay in milliseconds
(`util.RetryInterval`, not under src/). -/
def RetryInterval : Nat := 500

/-- Observable outcome of one run of the retry driver: how many closure calls
were made, the total inter-attempt delay incurred, the error the driver
returned (none on success), and the keyspace meta left by the last call. -/
structure RetryState where
  calls : Nat
  delayMs : Nat
  err : Option PDError
  meta : Option KeyspaceMeta
deriving Repr, DecidableEq

/-- Modelled from the spec: the bounded retry driver (`util.RunWithRetry`, not
under src/). It performs the closure up to `fuel` times; a call reporting
success (no error) or a non-retryable error ends the run at once; a retryable
error consumes one attempt and, when attempts remain, waits the fixed interval
and tries again; on exhaustion the last-seen error is surfaced. `idx` numbers
the calls so a client can be modelled as a function of the call index. -/
def runWithRetry (interval : Nat) (f : Nat → Bool × Option PDError × Option KeyspaceMeta) :
    (fuel : Nat) → (idx : Nat) → RetryState
  | 0, _ => ⟨0, 0, none, none⟩
  | fuel + 1, idx =>
    match f idx with
    | (_, none, meta) => ⟨1, 0, none, meta⟩
    | (false, some e, _) => ⟨1, 0, some e, none⟩
    | (true, some e, _) =>
      match fuel with
      | 0 => ⟨1, 0, some e, none⟩
      | fuel' + 1 =>
        let rest := runWithRetry interval f (fuel' + 1) (idx + 1)
        ⟨rest.calls + 1, rest.delayMs + interval, rest.err, rest.meta⟩

/-- The closure passed to the retry driver by `getKeyspaceMeta`: perform the
lookup, report retryable exactly when the error is one of the two listed
conditions, and pass the error (and the meta on success) back out. -/
def loadClosure (client : Nat → PDResponse) (i : Nat) :
    Bool × Option PDError × Option KeyspaceMeta :=
  match client i with
  | .ok meta => (false, none, meta)
  | .error e => (retryableErr e, some e, none)

/-- The full observable run of `getKeyspaceMeta` against a client whose i-th
lookup call answers `client i`. -/
def getKeyspaceMetaTrace (client : Nat → PDResponse) : RetryState :=
  runWithRetry RetryInterval (loadClosure client) DefaultMaxRetries 0

/-- `getKeyspaceMeta`: resolve the keyspace meta with retry; on driver error
return `nil, err`, otherwise the meta recorded by the last call. -/
def getKeyspaceMeta (client : Nat → PDResponse) : Except PDError (Option KeyspaceMeta) :=
  let st := getKeyspaceMetaTrace client
  match st.err with
  | some e => .error e
  | none => .ok st.meta

/-- The slice of the global process configuration the source reads: keyspace
name, store backend kind, connection path, pd server timeout (seconds), and
the three TLS file paths. -/
structure Config where
  keyspaceName : String
  store : String
  path : String
  pdServerTimeout : Nat
  clusterSSLCA : String
  clusterSSLCert : String
  clusterSSLKey : String
deriving Repr, DecidableEq

/-- The security option passed to the pd client constructor. -/
structure SecurityOption where
  caPath : String
  certPath : String
  keyPath : String
deriving Repr, DecidableEq

/-- ASCII lowercasing, the embedding of `strings.ToLower` on the ASCII store
names in play (written over the character list so it is kernel-computable). -/
def toLowerAscii (s : String) : String :=
  ⟨s.data.map Char.toLower⟩

/-- Modelled from the spec: the emptiness predicate for keyspace names
(`keyspace.IsKeyspaceNameEmpty`, not under src/) — a normalized check, not raw
string equality: a name is empty when it has no non-blank character. -/
def IsKeyspaceNameEmpty (name : String) : Bool :=
  name.data.all fun c => c = ' '

/-- Behaviour of the external world during one registration call: the
connection-string parse result (`tikvconfig.ParsePath`), the pd client
constructor (`pd.NewClient`, a function of addresses, security material and
timeout in milliseconds), and the client's lookup answers by call index. -/
structure Env where
  parsePath : String → Except String (List String)
  newClient : List String → SecurityOption → Nat → Except String Unit
  lookup : Nat → PDResponse

/-- The errors an entry point can return, tagged by origin. -/
inductive RegErr where
  | parse (msg : String)
  | clientInit (msg : String)
  | pd (e : PDError)
deriving Repr, DecidableEq

/-- Observable events of a registration call, in program order. -/
inductive Event where
  | newClientOk
  | lookup (i : Nat)
  | closeClient
  | setKeyspaceLabel (v : String)
  | initMetrics
  | registerMetricsVars
  | initSubsystem (name : String)
  | registerUnistoreMetrics
deriving Repr, DecidableEq

/-- The fixed fan-out of `registerMetrics`: the twelve subsystem
`InitMetricsVars` calls, in source order. -/
def subsystemInitEvents : List Event :=
  [Event.initSubsystem "copr", Event.initSubsystem "domain",
   Event.initSubsystem "executor", Event.initSubsystem "infoschema",
   Event.initSubsystem "isolation", Event.initSubsystem "plannercore",
   Event.initSubsystem "server", Event.initSubsystem "session",
   Event.initSubsystem "statshandler", Event.initSubsystem "topsqlreporter",
   Event.initSubsystem "ttlmetrics", Event.initSubsystem "txninfo"]

/-- `registerMetrics`: the common tail. If the meta is non-nil, set the
keyspace label to the decimal string of its id first; then init and register
the global metrics, fan out to every subsystem initializer, and finally run
the unistore-specific registration exactly when the global store string equals
"unistore" (an exact, case-sensitive comparison in the source). Returns nil. -/
def registerMetrics (cfg : Config) (keyspaceMeta : Option KeyspaceMeta) :
    List Event × Option RegErr :=
  ((match keyspaceMeta with
    | some m => [Event.setKeyspaceLabel (Nat.repr m.id)]
    | none => []) ++
   Event.initMetrics :: Event.registerMetricsVars :: subsystemInitEvents ++
   (if cfg.store = "unistore" then [Event.registerUnistoreMetrics] else []),
   none)

/-- The guard of `RegisterMetrics`: skip resolution when the keyspace name is
empty or the lower-cased store string is not "tikv". -/
def resolutionSkipped (cfg : Config) : Bool :=
  IsKeyspaceNameEmpty cfg.keyspaceName || toLowerAscii cfg.store != "tikv"

/-- The lookup events of a resolution run that made `calls` calls. -/
def lookupEvents (calls : Nat) : List Event :=
  (List.range calls).map Event.lookup

/-- `RegisterMetrics` (entry A): read the global config; if the guard fires,
register without a label. Otherwise parse the connection string, construct a
pd client with the configured timeout and TLS material, resolve the keyspace
with retry, and register; the client is closed (deferred) on every exit path
after successful construction. -/
def RegisterMetrics (cfg : Config) (env : Env) : List Event × Option RegErr :=
  if resolutionSkipped cfg then
    registerMetrics cfg none
  else
    match env.parsePath ("tikv://" ++ cfg.path) with
    | .error e => ([], some (.parse e))
    | .ok pdAddrs =>
      match env.newClient pdAddrs
          ⟨cfg.clusterSSLCA, cfg.clusterSSLCert, cfg.clusterSSLKey⟩
          (cfg.pdServerTimeout * 1000) with
      | .error e => ([], some (.clientInit e))
      | .ok _ =>
        let st := getKeyspaceMetaTrace env.lookup
        match st.err with
        | some e =>
          (Event.newClientOk :: lookupEvents st.calls ++ [Event.closeClient],
           some (.pd e))
        | none =>
          let tail := registerMetrics cfg st.meta
          (Event.newClientOk :: lookupEvents st.calls ++ tail.1 ++ [Event.closeClient],
           tail.2)

/-- `RegisterMetricsForBR` (entry B): explicit addresses and keyspace name, a
fixed 10s timeout, empty security material, no connection-string parse; the
common tail still reads the global config for the unistore branch. -/
def RegisterMetricsForBR (pdAddrs : List String) (keyspaceName : String)
    (cfg : Config) (env : Env) : List Event × Option RegErr :=
  if IsKeyspaceNameEmpty keyspaceName then
    registerMetrics cfg none
  else
    match env.newClient pdAddrs ⟨"", "", ""⟩ 10000 with
    | .error e => ([], some (.clientInit e))
    | .ok _ =>
      let st := getKeyspaceMetaTrace env.lookup
      match st.err with
      | some e =>
        (Event.newClientOk :: lookupEvents st.calls ++ [Event.closeClient],
         some (.pd e))
      | none =>
        let tail := registerMetrics cfg st.meta
        (Event.newClientOk :: lookupEvents st.calls ++ tail.1 ++ [Event.closeClient],
         tail.2)

/-- Events that belong to the registration tail (label decision and
initializer fan-out), as opposed to client-lifecycle and lookup events. -/
def isRegistrationEvent : Event → Bool
  | .setKeyspaceLabel _ => true
  | .initMetrics => true
  | .registerMetricsVars => true
  | .initSubsystem _ => true
  | .registerUnistoreMetrics => true
  | _ => false

/-- True when the list contains no registration-tail event. -/
def noRegistrationEvent (l : List Event) : Bool :=
  l.all fun ev => !(isRegistrationEvent ev)

/-- Client-lifecycle events (construction and close). -/
def isClientEvent : Event → Bool
  | .newClientOk => true
  | .closeClient => true
  | _ => false

/-- Lookup-call events. -/
def isLookupEvent : Event → Bool
  | .lookup _ => true
  | _ => false

/-- Keyspace-label events. -/
def isLabelEvent : Event → Bool
  | .setKeyspaceLabel _ => true
  | _ => false

/-- The unistore-specific registration event. -/
def isUnistoreEvent : Event → Bool
  | .registerUnistoreMetrics => true
  | _ => false

/-- The trace with the unistore-specific event erased. -/
def nonUnistoreEvents (l : List Event) : List Event :=
  l.filter fun ev => !(isUnistoreEvent ev)

/-- Number of occurrences of an event in a trace. -/
def countEvent (ev : Event) : List Event → Nat
  | [] => 0
  | e :: rest => (if e = ev then 1 else 0) + countEvent ev rest

/-! Helper lemmas about the retry driver. -/

theorem runWithRetry_success (interval : Nat)
    (f : Nat → Bool × Option PDError × Option KeyspaceMeta)
    (fuel idx : Nat) (b : Bool) (meta : Option KeyspaceMeta)
    (h : f idx = (b, none, meta)) :
    runWithRetry interval f (fuel + 1) idx = ⟨1, 0, none, meta⟩ := by
  simp [runWithRetry, h]

theorem runWithRetry_fatal (interval : Nat)
    (f : Nat → Bool × Option PDError × Option KeyspaceMeta)
    (fuel idx : Nat) (e : PDError) (m : Option KeyspaceMeta)
    (h : f idx = (false, some e, m)) :
    runWithRetry interval f (fuel + 1) idx = ⟨1, 0, some e, none⟩ := by
  simp [runWithRetry, h]

theorem runWithRetry_allRetryable (interval : Nat)
    (f : Nat → Bool × Option PDError × Option KeyspaceMeta) :
    ∀ fuel idx,
      (∀ i, i ≤ fuel → ∃ e m, f (idx + i) = (true, some e, m)) →
      runWithRetry interval f (fuel + 1) idx =
        ⟨fuel + 1, fuel * interval, (f (idx + fuel)).2.1, none⟩ := by
  intro fuel
  induction fuel with
  | zero =>
    intro idx hall
    obtain ⟨e, m, he⟩ := hall 0 (Nat.le_refl 0)
    rw [Nat.add_zero] at he
    simp [runWithRetry, he]
  | succ k ih =>
    intro idx hall
    obtain ⟨e, m, he⟩ := hall 0 (Nat.zero_le _)
    rw [Nat.add_zero] at he
    have hrest := ih (idx + 1) (fun i hi => by
      obtain ⟨e', m', h'⟩ := hall (i + 1) (by omega)
      refine ⟨e', m', ?_⟩
      rw [show idx + 1 + i = idx + (i + 1) by omega]
      exact h')
    simp only [runWithRetry, he, hrest]
    rw [show idx + 1 + k = idx + (k + 1) by omega]
    simp [Nat.succ_mul]

/-- C1: the resolver retries only on the two listed conditions; any other
failure on the first lookup means exactly one call is made, no delay is
incurred, and that failure is returned as-is. -/
theorem getKeyspaceMeta_fatal_single_call (client : Nat → PDResponse) (e : PDError)
    (h1 : client 0 = .error e)
    (h2 : e ≠ PDError.notBootstrapped) (h3 : e ≠ PDError.keyspaceNotExist) :
    retryableErr e = false ∧
    (getKeyspaceMetaTrace client).calls = 1 ∧
    (getKeyspaceMetaTrace client).delayMs = 0 ∧
    getKeyspaceMeta client = .error e := by
  have hre : retryableErr e = false := by
    cases e with
    | notBootstrapped => exact absurd rfl h2
    | keyspaceNotExist => exact absurd rfl h3
    | other msg => rfl
  have hf : loadClosure client 0 = (false, some e, none) := by
    simp [loadClosure, h1, hre]
  have htrace : getKeyspaceMetaTrace client = ⟨1, 0, some e, none⟩ := by
    unfold getKeyspaceMetaTrace DefaultMaxRetries
    exact runWithRetry_fatal RetryInterval (loadClosure client) 29 0 e none hf
  refine ⟨hre, ?_, ?_, ?_⟩
  · rw [htrace]
  · rw [htrace]
  · simp [getKeyspaceMeta, htrace]

/-- C1 witness: a client failing with a generic transport error is called
exactly once, with no delay, and the error is surfaced unchanged. -/
theorem getKeyspaceMeta_fatal_single_call_witness :
    retryableErr (PDError.other "auth") = false ∧
    (getKeyspaceMetaTrace fun _ => .error (PDError.other "auth")).calls = 1 ∧
    (getKeyspaceMetaTrace fun _ => .error (PDError.other "auth")).delayMs = 0 ∧
    getKeyspaceMeta (fun _ => .error (PDError.other "auth")) =
      .error (PDError.other "auth") :=
  getKeyspaceMeta_fatal_single_call (fun _ => .error (PDError.other "auth"))
    (PDError.other "auth") rfl (by decide) (by decide)

/-- C2: against a client that always fails retryably, the resolver makes
exactly `DefaultMaxRetries` calls, never more, and returns the failure of the
last call (the last-seen error, mapped through the error-only projection). -/
theorem getKeyspaceMeta_exhausts_budget (client : Nat → PDResponse)
    (h : ∀ i, i < DefaultMaxRetries →
      ∃ e, client i = .error e ∧ retryableErr e = true) :
    (getKeyspaceMetaTrace client).calls = DefaultMaxRetries ∧
    (getKeyspaceMetaTrace client).delayMs = (DefaultMaxRetries - 1) * RetryInterval ∧
    getKeyspaceMeta client =
      Except.map (fun _ => (none : Option KeyspaceMeta))
        (client (DefaultMaxRetries - 1)) := by
  have hall : ∀ i, i ≤ 29 → ∃ e m, loadClosure client (0 + i) = (true, some e, m) := by
    intro i hi
    obtain ⟨e, he, hr⟩ := h i (by unfold DefaultMaxRetries; omega)
    refine ⟨e, none, ?_⟩
    simp [loadClosure, Nat.zero_add, he, hr]
  have ht := runWithRetry_allRetryable RetryInterval (loadClosure client) 29 0 hall
  have htrace : getKeyspaceMetaTrace client =
      ⟨30, 29 * RetryInterval, (loadClosure client 29).2.1, none⟩ := by
    unfold getKeyspaceMetaTrace DefaultMaxRetries
    simpa using ht
  obtain ⟨e29, he29, hr29⟩ := h 29 (by unfold DefaultMaxRetries; omega)
  have hload : (loadClosure client 29).2.1 = some e29 := by
    simp [loadClosure, he29]
  refine ⟨?_, ?_, ?_⟩
  · rw [htrace]; rfl
  · rw [htrace]; rfl
  · simp [getKeyspaceMeta, htrace, hload, DefaultMaxRetries, he29, Except.map]

/-- C2 witness: a client always answering "keyspace does not exist" is called
exactly 30 times and the final failure carries that error. -/
theorem getKeyspaceMeta_exhausts_budget_witness :
    (getKeyspaceMetaTrace fun _ => .error PDError.keyspaceNotExist).calls =
      DefaultMaxRetries ∧
    (getKeyspaceMetaTrace fun _ => .error PDError.keyspaceNotExist).delayMs =
      (DefaultMaxRetries - 1) * RetryInterval ∧
    getKeyspaceMeta (fun _ => .error PDError.keyspaceNotExist) =
      Except.map (fun _ => (none : Option KeyspaceMeta))
        ((fun _ => (.error PDError.keyspaceNotExist : PDResponse))
          (DefaultMaxRetries - 1)) :=
  getKeyspaceMeta_exhausts_budget (fun _ => .error PDError.keyspaceNotExist)
    (fun _ _ => ⟨PDError.keyspaceNotExist, rfl, rfl⟩)

/-! Helper lemmas about traces. -/

theorem registerMetrics_snd (cfg : Config) (meta : Option KeyspaceMeta) :
    (registerMetrics cfg meta).2 = none := rfl

theorem countEvent_append (ev : Event) (l1 l2 : List Event) :
    countEvent ev (l1 ++ l2) = countEvent ev l1 + countEvent ev l2 := by
  induction l1 with
  | nil => simp [countEvent]
  | cons a l ih => simp [countEvent, ih, Nat.add_assoc]

theorem countEvent_lookupEvents_eq_zero (ev : Event)
    (h : ∀ i, ev ≠ Event.lookup i) : ∀ n, countEvent ev (lookupEvents n) = 0 := by
  intro n
  induction n with
  | zero => rfl
  | succ k ih =>
    unfold lookupEvents at ih ⊢
    rw [List.range_succ, List.map_append, countEvent_append, ih]
    simp [countEvent, Ne.symm (h k)]

theorem countEvent_closeClient_registerMetrics (cfg : Config)
    (meta : Option KeyspaceMeta) :
    countEvent Event.closeClient (registerMetrics cfg meta).1 = 0 := by
  cases meta <;> by_cases hc : cfg.store = "unistore" <;>
    simp [registerMetrics, subsystemInitEvents, countEvent, countEvent_append, hc]

theorem countEvent_newClientOk_registerMetrics (cfg : Config)
    (meta : Option KeyspaceMeta) :
    countEvent Event.newClientOk (registerMetrics cfg meta).1 = 0 := by
  cases meta <;> by_cases hc : cfg.store = "unistore" <;>
    simp [registerMetrics, subsystemInitEvents, countEvent, countEvent_append, hc]

theorem noRegistrationEvent_lookupEvents (n : Nat) :
    noRegistrationEvent (lookupEvents n) = true := by
  unfold noRegistrationEvent lookupEvents
  rw [List.all_eq_true]
  intro ev hev
  rw [List.mem_map] at hev
  obtain ⟨i, _, rfl⟩ := hev
  rfl

theorem noRegistrationEvent_errTrace (n : Nat) :
    noRegistrationEvent
      (Event.newClientOk :: lookupEvents n ++ [Event.closeClient]) = true := by
  have hl := noRegistrationEvent_lookupEvents n
  unfold noRegistrationEvent at hl ⊢
  simp only [List.all_cons, List.all_append]
  rw [hl]
  rfl

/-- Case analysis of `RegisterMetrics`: the five exit paths. -/
theorem RegisterMetrics_cases (cfg : Config) (env : Env) :
    (resolutionSkipped cfg = true ∧
      RegisterMetrics cfg env = registerMetrics cfg none) ∨
    (resolutionSkipped cfg = false ∧
      ∃ msg, env.parsePath ("tikv://" ++ cfg.path) = .error msg ∧
        RegisterMetrics cfg env = ([], some (.parse msg))) ∨
    (resolutionSkipped cfg = false ∧
      ∃ addrs msg, env.parsePath ("tikv://" ++ cfg.path) = .ok addrs ∧
        env.newClient addrs
            ⟨cfg.clusterSSLCA, cfg.clusterSSLCert, cfg.clusterSSLKey⟩
            (cfg.pdServerTimeout * 1000) = .error msg ∧
        RegisterMetrics cfg env = ([], some (.clientInit msg))) ∨
    (resolutionSkipped cfg = false ∧
      ∃ e, (getKeyspaceMetaTrace env.lookup).err = some e ∧
        RegisterMetrics cfg env =
          (Event.newClientOk ::
              lookupEvents (getKeyspaceMetaTrace env.lookup).calls ++
              [Event.closeClient],
           some (.pd e))) ∨
    (resolutionSkipped cfg = false ∧
      (getKeyspaceMetaTrace env.lookup).err = none ∧
      RegisterMetrics cfg env =
        (Event.newClientOk ::
            lookupEvents (getKeyspaceMetaTrace env.lookup).calls ++
            (registerMetrics cfg (getKeyspaceMetaTrace env.lookup).meta).1 ++
            [Event.closeClient],
         none)) := by
  by_cases hskip : resolutionSkipped cfg = true
  · exact Or.inl ⟨hskip, by simp [RegisterMetrics, hskip]⟩
  · have hskip' : resolutionSkipped cfg = false := by
      simpa using hskip
    cases hpp : env.parsePath ("tikv://" ++ cfg.path) with
    | error msg =>
      exact Or.inr (Or.inl ⟨hskip', msg, rfl,
        by simp [RegisterMetrics, hskip', hpp]⟩)
    | ok addrs =>
      cases hnc : env.newClient addrs
          ⟨cfg.clusterSSLCA, cfg.clusterSSLCert, cfg.clusterSSLKey⟩
          (cfg.pdServerTimeout * 1000) with
      | error msg =>
        exact Or.inr (Or.inr (Or.inl ⟨hskip', addrs, msg, rfl, hnc,
          by simp [RegisterMetrics, hskip', hpp, hnc]⟩))
      | ok u =>
        cases u
        cases herr : (getKeyspaceMetaTrace env.lookup).err with
        | some e =>
          exact Or.inr (Or.inr (Or.inr (Or.inl ⟨hskip', e, rfl,
            by simp [RegisterMetrics, hskip', hpp, hnc, herr]⟩)))
        | none =>
          exact Or.inr (Or.inr (Or.inr (Or.inr ⟨hskip', rfl,
            by simp [RegisterMetrics, hskip', hpp, hnc, herr, registerMetrics_snd]⟩)))

/-- Case analysis of `RegisterMetricsForBR`: the four exit paths. -/
theorem RegisterMetricsForBR_cases (pdAddrs : List String) (keyspaceName : String)
    (cfg : Config) (env : Env) :
    (IsKeyspaceNameEmpty keyspaceName = true ∧
      RegisterMetricsForBR pdAddrs keyspaceName cfg env = registerMetrics cfg none) ∨
    (IsKeyspaceNameEmpty keyspaceName = false ∧
      ∃ msg, env.newClient pdAddrs ⟨"", "", ""⟩ 10000 = .error msg ∧
        RegisterMetricsForBR pdAddrs keyspaceName cfg env =
          ([], some (.clientInit msg))) ∨
    (IsKeyspaceNameEmpty keyspaceName = false ∧
      ∃ e, (getKeyspaceMetaTrace env.lookup).err = some e ∧
        RegisterMetricsForBR pdAddrs keyspaceName cfg env =
          (Event.newClientOk ::
              lookupEvents (getKeyspaceMetaTrace env.lookup).calls ++
              [Event.closeClient],
           some (.pd e))) ∨
    (IsKeyspaceNameEmpty keyspaceName = false ∧
      (getKeyspaceMetaTrace env.lookup).err = none ∧
      RegisterMetricsForBR pdAddrs keyspaceName cfg env =
        (Event.newClientOk ::
            lookupEvents (getKeyspaceMetaTrace env.lookup).calls ++
            (registerMetrics cfg (getKeyspaceMetaTrace env.lookup).meta).1 ++
            [Event.closeClient],
         none)) := by
  by_cases hskip : IsKeyspaceNameEmpty keyspaceName = true
  · exact Or.inl ⟨hskip, by simp [RegisterMetricsForBR, hskip]⟩
  · have hskip' : IsKeyspaceNameEmpty keyspaceName = false := by
      simpa using hskip
    cases hnc : env.newClient pdAddrs ⟨"", "", ""⟩ 10000 with
    | error msg =>
      exact Or.inr (Or.inl ⟨hskip', msg, rfl,
        by simp [RegisterMetricsForBR, hskip', hnc]⟩)
    | ok u =>
      cases u
      cases herr : (getKeyspaceMetaTrace env.lookup).err with
      | some e =>
        exact Or.inr (Or.inr (Or.inl ⟨hskip', e, rfl,
          by simp [RegisterMetricsForBR, hskip', hnc, herr]⟩))
      | none =>
        exact Or.inr (Or.inr (Or.inr ⟨hskip', rfl,
          by simp [RegisterMetricsForBR, hskip', hnc, herr, registerMetrics_snd]⟩))

/-! More trace helpers. -/

theorem any_isLabelEvent_registerMetrics_none (cfg : Config) :
    (registerMetrics cfg none).1.any isLabelEvent = false := by
  by_cases hc : cfg.store = "unistore" <;>
    simp [registerMetrics, subsystemInitEvents, hc, isLabelEvent]

theorem any_isLabelEvent_lookupEvents (n : Nat) :
    (lookupEvents n).any isLabelEvent = false := by
  rw [List.any_eq_false]
  intro ev hev
  rw [lookupEvents, List.mem_map] at hev
  obtain ⟨i, _, rfl⟩ := hev
  simp [isLabelEvent]

/-- Sample environment: parse succeeds, the client constructs, the first
lookup answers keyspace id 42. -/
def envOkW : Env :=
  ⟨fun _ => .ok ["127.0.0.1:2379"], fun _ _ _ => .ok (), fun _ => .ok (some ⟨42⟩)⟩

/-- Sample config: keyspace configured but a non-tikv backend. -/
def cfgSkipW : Config := ⟨"tenant_7", "mocktikv", "p", 3, "", "", ""⟩

/-- Sample config: keyspace configured, tikv backend. -/
def cfgTikvW : Config := ⟨"tenant_7", "tikv", "127.0.0.1:2379", 3, "", "", ""⟩

/-- Sample environment whose connection-string parse fails. -/
def envParseFailW : Env :=
  ⟨fun _ => .error "bad", fun _ _ _ => .ok (), fun _ => .ok none⟩

/-- Sample environment whose client construction fails. -/
def envClientFailW : Env :=
  ⟨fun _ => .ok ["a"], fun _ _ _ => .error "nc", fun _ => .ok none⟩

/-- C3: when the keyspace name normalizes to empty or the store backend is not
"tikv" (case-insensitively), `RegisterMetrics` equals the no-label registration
for every environment: no client is constructed, no lookup happens, no
keyspace label is set, and the call succeeds. -/
theorem RegisterMetrics_skip_no_client (cfg : Config) (env : Env)
    (h : IsKeyspaceNameEmpty cfg.keyspaceName = true ∨ toLowerAscii cfg.store ≠ "tikv") :
    RegisterMetrics cfg env = registerMetrics cfg none ∧
    (RegisterMetrics cfg env).1.any isClientEvent = false ∧
    (RegisterMetrics cfg env).1.any isLookupEvent = false ∧
    (RegisterMetrics cfg env).1.any isLabelEvent = false ∧
    (RegisterMetrics cfg env).2 = none := by
  have hskip : resolutionSkipped cfg = true := by
    unfold resolutionSkipped
    rcases h with h | h
    · simp [h]
    · simp [bne_iff_ne, h]
  have heq : RegisterMetrics cfg env = registerMetrics cfg none := by
    simp [RegisterMetrics, hskip]
  refine ⟨heq, ?_, ?_, ?_, by rw [heq]; exact registerMetrics_snd cfg none⟩ <;>
    rw [heq] <;> by_cases hc : cfg.store = "unistore" <;>
      simp [registerMetrics, subsystemInitEvents, hc,
        isClientEvent, isLookupEvent, isLabelEvent]

/-- C3 witness: a config with a non-tikv backend registers without any client,
lookup or label event. -/
theorem RegisterMetrics_skip_no_client_witness :
    RegisterMetrics cfgSkipW envOkW = registerMetrics cfgSkipW none ∧
    (RegisterMetrics cfgSkipW envOkW).1.any isClientEvent = false ∧
    (RegisterMetrics cfgSkipW envOkW).1.any isLookupEvent = false ∧
    (RegisterMetrics cfgSkipW envOkW).1.any isLabelEvent = false ∧
    (RegisterMetrics cfgSkipW envOkW).2 = none :=
  RegisterMetrics_skip_no_client cfgSkipW envOkW (Or.inr (by decide))

/-- C4: whenever an entry point returns an error, its trace contains no
registration-tail event: no label was set and no initializer ran. -/
theorem fatal_aborts_before_registration :
    (∀ (cfg : Config) (env : Env) (e : RegErr),
      (RegisterMetrics cfg env).2 = some e →
      noRegistrationEvent (RegisterMetrics cfg env).1 = true) ∧
    (∀ (pdAddrs : List String) (keyspaceName : String) (cfg : Config)
        (env : Env) (e : RegErr),
      (RegisterMetricsForBR pdAddrs keyspaceName cfg env).2 = some e →
      noRegistrationEvent (RegisterMetricsForBR pdAddrs keyspaceName cfg env).1
        = true) := by
  constructor
  · intro cfg env e he
    rcases RegisterMetrics_cases cfg env with
      ⟨_, heq⟩ | ⟨_, msg, _, heq⟩ | ⟨_, addrs, msg, _, _, heq⟩ |
      ⟨_, e', _, heq⟩ | ⟨_, _, heq⟩
    · rw [heq, registerMetrics_snd] at he; cases he
    · rw [heq]; rfl
    · rw [heq]; rfl
    · rw [heq]; exact noRegistrationEvent_errTrace _
    · rw [heq] at he; simp at he
  · intro pdAddrs keyspaceName cfg env e he
    rcases RegisterMetricsForBR_cases pdAddrs keyspaceName cfg env with
      ⟨_, heq⟩ | ⟨_, msg, _, heq⟩ | ⟨_, e', _, heq⟩ | ⟨_, _, heq⟩
    · rw [heq, registerMetrics_snd] at he; cases he
    · rw [heq]; rfl
    · rw [heq]; exact noRegistrationEvent_errTrace _
    · rw [heq] at he; simp at he

/-- C4 witness: a failed connection-string parse and a failed client
construction both abort with no registration-tail event. -/
theorem fatal_aborts_before_registration_witness :
    (RegisterMetrics cfgTikvW envParseFailW).2 = some (RegErr.parse "bad") ∧
    noRegistrationEvent (RegisterMetrics cfgTikvW envParseFailW).1 = true ∧
    noRegistrationEvent
      (RegisterMetricsForBR ["a"] "tenant_7" cfgTikvW envClientFailW).1 = true :=
  ⟨by decide,
   fatal_aborts_before_registration.1 cfgTikvW envParseFailW
     (RegErr.parse "bad") (by decide),
   fatal_aborts_before_registration.2 ["a"] "tenant_7" cfgTikvW envClientFailW
     (RegErr.clientInit "nc") (by decide)⟩

/-! Count helpers for the close-once property. -/

theorem countEvent_errTrace_closeClient (n : Nat) :
    countEvent Event.closeClient
      (Event.newClientOk :: lookupEvents n ++ [Event.closeClient]) = 1 := by
  have h0 := countEvent_lookupEvents_eq_zero Event.closeClient
    (fun _ h => Event.noConfusion h) n
  simp [countEvent, countEvent_append, h0]

theorem countEvent_errTrace_newClientOk (n : Nat) :
    countEvent Event.newClientOk
      (Event.newClientOk :: lookupEvents n ++ [Event.closeClient]) = 1 := by
  have h0 := countEvent_lookupEvents_eq_zero Event.newClientOk
    (fun _ h => Event.noConfusion h) n
  simp [countEvent, countEvent_append, h0]

theorem countEvent_okTrace_closeClient (cfg : Config) (meta : Option KeyspaceMeta)
    (n : Nat) :
    countEvent Event.closeClient
      (Event.newClientOk :: lookupEvents n ++ (registerMetrics cfg meta).1 ++
        [Event.closeClient]) = 1 := by
  have h0 := countEvent_lookupEvents_eq_zero Event.closeClient
    (fun _ h => Event.noConfusion h) n
  have h1 := countEvent_closeClient_registerMetrics cfg meta
  simp [countEvent, countEvent_append, h0, h1]

theorem countEvent_okTrace_newClientOk (cfg : Config) (meta : Option KeyspaceMeta)
    (n : Nat) :
    countEvent Event.newClientOk
      (Event.newClientOk :: lookupEvents n ++ (registerMetrics cfg meta).1 ++
        [Event.closeClient]) = 1 := by
  have h0 := countEvent_lookupEvents_eq_zero Event.newClientOk
    (fun _ h => Event.noConfusion h) n
  have h1 := countEvent_newClientOk_registerMetrics cfg meta
  simp [countEvent, countEvent_append, h0, h1]

/-- C5: in both entry points the number of client-close events always equals
the number of successful client constructions, and a client is constructed at
most once — so a constructed client is closed exactly once on every exit
path. -/
theorem client_closed_exactly_once (cfg : Config) (env : Env)
    (pdAddrs : List String) (keyspaceName : String) :
    (countEvent Event.closeClient (RegisterMetrics cfg env).1 =
        countEvent Event.newClientOk (RegisterMetrics cfg env).1 ∧
      countEvent Event.newClientOk (RegisterMetrics cfg env).1 ≤ 1) ∧
    (countEvent Event.closeClient
        (RegisterMetricsForBR pdAddrs keyspaceName cfg env).1 =
        countEvent Event.newClientOk
          (RegisterMetricsForBR pdAddrs keyspaceName cfg env).1 ∧
      countEvent Event.newClientOk
        (RegisterMetricsForBR pdAddrs keyspaceName cfg env).1 ≤ 1) := by
  constructor
  · rcases RegisterMetrics_cases cfg env with
      ⟨_, heq⟩ | ⟨_, msg, _, heq⟩ | ⟨_, addrs, msg, _, _, heq⟩ |
      ⟨_, e', _, heq⟩ | ⟨_, _, heq⟩ <;> rw [heq]
    · rw [countEvent_closeClient_registerMetrics,
        countEvent_newClientOk_registerMetrics]
      exact ⟨rfl, by omega⟩
    · exact ⟨rfl, by simp [countEvent]⟩
    · exact ⟨rfl, by simp [countEvent]⟩
    · rw [countEvent_errTrace_closeClient, countEvent_errTrace_newClientOk]
      exact ⟨rfl, by omega⟩
    · rw [countEvent_okTrace_closeClient, countEvent_okTrace_newClientOk]
      exact ⟨rfl, by omega⟩
  · rcases RegisterMetricsForBR_cases pdAddrs keyspaceName cfg env with
      ⟨_, heq⟩ | ⟨_, msg, _, heq⟩ | ⟨_, e', _, heq⟩ | ⟨_, _, heq⟩ <;> rw [heq]
    · rw [countEvent_closeClient_registerMetrics,
        countEvent_newClientOk_registerMetrics]
      exact ⟨rfl, by omega⟩
    · exact ⟨rfl, by simp [countEvent]⟩
    · rw [countEvent_errTrace_closeClient, countEvent_errTrace_newClientOk]
      exact ⟨rfl, by omega⟩
    · rw [countEvent_okTrace_closeClient, countEvent_okTrace_newClientOk]
      exact ⟨rfl, by omega⟩

/-- C6: with resolved metadata of id `n`, the registration tail emits the
keyspace label with value the decimal string of `n` as its first event; the
rest of the trace — where every initializer lives — carries no label event. -/
theorem registerMetrics_label_first (cfg : Config) (m : KeyspaceMeta) :
    (registerMetrics cfg (some m)).1 =
      Event.setKeyspaceLabel (Nat.repr m.id) :: (registerMetrics cfg none).1 ∧
    (registerMetrics cfg none).1.any isLabelEvent = false := by
  constructor
  · simp [registerMetrics]
  · exact any_isLabelEvent_registerMetrics_none cfg

/-! Filter helpers for the unistore-specific event. -/

theorem filter_lookupEvents (n : Nat) :
    (lookupEvents n).filter (fun ev => !(isUnistoreEvent ev)) = lookupEvents n := by
  rw [List.filter_eq_self]
  intro a ha
  rw [lookupEvents, List.mem_map] at ha
  obtain ⟨i, _, rfl⟩ := ha
  rfl

theorem nonUnistoreEvents_registerMetrics (cfg : Config)
    (meta : Option KeyspaceMeta) :
    nonUnistoreEvents (registerMetrics cfg meta).1 =
      (match meta with
       | some m => [Event.setKeyspaceLabel (Nat.repr m.id)]
       | none => []) ++
      Event.initMetrics :: Event.registerMetricsVars :: subsystemInitEvents := by
  cases meta <;> by_cases hc : cfg.store = "unistore" <;>
    simp [nonUnistoreEvents, registerMetrics, subsystemInitEvents, hc,
      isUnistoreEvent]

/-- Sample config: empty keyspace name, store exactly "unistore". -/
def cfgUniLowerW : Config := ⟨"", "unistore", "", 0, "", "", ""⟩

/-- Sample config: empty keyspace name, store "Unistore" (mixed case). -/
def cfgUniMixedW : Config := ⟨"", "Unistore", "", 0, "", "", ""⟩

/-- Sample config: empty keyspace name, store "tikv". -/
def cfgStoreTikvPlainW : Config := ⟨"", "tikv", "", 0, "", "", ""⟩

/-- C7 counterexample: "Unistore" and "unistore" are case variants of the same
backend string, yet the unistore-specific initializer runs for one and not the
other — the unistore comparison in the source is exact, not case-insensitive. -/
theorem store_unistore_case_sensitive_counterexample :
    toLowerAscii cfgUniMixedW.store = toLowerAscii cfgUniLowerW.store ∧
    Event.registerUnistoreMetrics ∈ (registerMetrics cfgUniLowerW none).1 ∧
    Event.registerUnistoreMetrics ∉ (registerMetrics cfgUniMixedW none).1 := by
  refine ⟨by decide, by decide, by decide⟩

/-- C7 amended: the tikv comparison gating resolution is case-insensitive —
the guard is unchanged under any store string with the same lowercasing — but
the unistore comparison gating the extra initializer is exact: it fires iff
the store string is precisely "unistore". -/
theorem store_comparisons_amended (cfg : Config) (s : String)
    (meta : Option KeyspaceMeta)
    (h : toLowerAscii s = toLowerAscii cfg.store) :
    resolutionSkipped { cfg with store := s } = resolutionSkipped cfg ∧
    (Event.registerUnistoreMetrics ∈ (registerMetrics cfg meta).1 ↔
      cfg.store = "unistore") := by
  constructor
  · unfold resolutionSkipped
    simp [h]
  · cases meta <;> by_cases hc : cfg.store = "unistore" <;>
      simp [registerMetrics, subsystemInitEvents, hc]

/-- C7 amended witness: "TiKV" lowercases like "tikv", so the resolution guard
is unchanged; the sample tikv config never runs the unistore initializer. -/
theorem store_comparisons_amended_witness :
    resolutionSkipped { cfgTikvW with store := "TiKV" } =
      resolutionSkipped cfgTikvW ∧
    (Event.registerUnistoreMetrics ∈ (registerMetrics cfgTikvW none).1 ↔
      cfgTikvW.store = "unistore") :=
  store_comparisons_amended cfgTikvW "TiKV" none (by decide)

/-- C8 counterexample: two runs of `RegisterMetricsForBR` with identical
arguments and identical client behaviour but different global configurations
behave differently — the shared tail reads the global store backend. -/
theorem forBR_global_config_counterexample :
    RegisterMetricsForBR ["pd"] "" cfgUniLowerW envOkW ≠
      RegisterMetricsForBR ["pd"] "" cfgStoreTikvPlainW envOkW := by
  decide

/-- C8 amended: for identical arguments and client behaviour,
`RegisterMetricsForBR` returns the same result under any two global
configurations, and its traces agree once the unistore-specific initializer
event — the one globally-configured piece of the shared tail — is erased. -/
theorem forBR_depends_only_on_args_amended (pdAddrs : List String)
    (keyspaceName : String) (env : Env) (cfg1 cfg2 : Config) :
    (RegisterMetricsForBR pdAddrs keyspaceName cfg1 env).2 =
      (RegisterMetricsForBR pdAddrs keyspaceName cfg2 env).2 ∧
    nonUnistoreEvents (RegisterMetricsForBR pdAddrs keyspaceName cfg1 env).1 =
      nonUnistoreEvents (RegisterMetricsForBR pdAddrs keyspaceName cfg2 env).1 := by
  have hreg : ∀ meta, nonUnistoreEvents (registerMetrics cfg1 meta).1 =
      nonUnistoreEvents (registerMetrics cfg2 meta).1 := by
    intro meta
    rw [nonUnistoreEvents_registerMetrics, nonUnistoreEvents_registerMetrics]
  unfold RegisterMetricsForBR
  by_cases hskip : IsKeyspaceNameEmpty keyspaceName = true
  · simp only [hskip, if_true]
    exact ⟨by rw [registerMetrics_snd, registerMetrics_snd], hreg none⟩
  · cases hnc : env.newClient pdAddrs ⟨"", "", ""⟩ 10000 with
    | error msg => simp [hskip, hnc]
    | ok u =>
      cases u
      cases herr : (getKeyspaceMetaTrace env.lookup).err with
      | some e => simp [hskip, herr]
      | none =>
        have h1 := hreg (getKeyspaceMetaTrace env.lookup).meta
        unfold nonUnistoreEvents at h1
        have hnu : isUnistoreEvent Event.newClientOk = false := rfl
        have hcc : isUnistoreEvent Event.closeClient = false := rfl
        simp [hskip, herr, registerMetrics_snd, nonUnistoreEvents,
          List.filter_append, List.filter_cons, hnu, hcc,
          filter_lookupEvents, h1]

/-- C9: the registration tail always returns nil, so an entry-point error can
only originate in connection-string parsing, client construction, or keyspace
resolution, each visible as the corresponding failure of the environment. -/
theorem registerMetrics_infallible :
    (∀ (cfg : Config) (meta : Option KeyspaceMeta),
      (registerMetrics cfg meta).2 = none) ∧
    (∀ (cfg : Config) (env : Env) (e : RegErr),
      (RegisterMetrics cfg env).2 = some e →
      (∃ msg, e = RegErr.parse msg ∧
        env.parsePath ("tikv://" ++ cfg.path) = .error msg) ∨
      (∃ msg, e = RegErr.clientInit msg ∧ ∃ addrs,
        env.parsePath ("tikv://" ++ cfg.path) = .ok addrs ∧
        env.newClient addrs
          ⟨cfg.clusterSSLCA, cfg.clusterSSLCert, cfg.clusterSSLKey⟩
          (cfg.pdServerTimeout * 1000) = .error msg) ∨
      (∃ pe, e = RegErr.pd pe ∧
        (getKeyspaceMetaTrace env.lookup).err = some pe)) ∧
    (∀ (pdAddrs : List String) (keyspaceName : String) (cfg : Config)
        (env : Env) (e : RegErr),
      (RegisterMetricsForBR pdAddrs keyspaceName cfg env).2 = some e →
      (∃ msg, e = RegErr.clientInit msg ∧
        env.newClient pdAddrs ⟨"", "", ""⟩ 10000 = .error msg) ∨
      (∃ pe, e = RegErr.pd pe ∧
        (getKeyspaceMetaTrace env.lookup).err = some pe)) := by
  refine ⟨fun cfg meta => registerMetrics_snd cfg meta, ?_, ?_⟩
  · intro cfg env e he
    rcases RegisterMetrics_cases cfg env with
      ⟨_, heq⟩ | ⟨_, msg, hpp, heq⟩ | ⟨_, addrs, msg, hpp, hnc, heq⟩ |
      ⟨_, e', herr, heq⟩ | ⟨_, _, heq⟩
    · rw [heq, registerMetrics_snd] at he; cases he
    · rw [heq] at he
      simp only [Option.some.injEq] at he
      exact Or.inl ⟨msg, he.symm, hpp⟩
    · rw [heq] at he
      simp only [Option.some.injEq] at he
      exact Or.inr (Or.inl ⟨msg, he.symm, addrs, hpp, hnc⟩)
    · rw [heq] at he
      simp only [Option.some.injEq] at he
      exact Or.inr (Or.inr ⟨e', he.symm, herr⟩)
    · rw [heq] at he; cases he
  · intro pdAddrs keyspaceName cfg env e he
    rcases RegisterMetricsForBR_cases pdAddrs keyspaceName cfg env with
      ⟨_, heq⟩ | ⟨_, msg, hnc, heq⟩ | ⟨_, e', herr, heq⟩ | ⟨_, _, heq⟩
    · rw [heq, registerMetrics_snd] at he; cases he
    · rw [heq] at he
      simp only [Option.some.injEq] at he
      exact Or.inl ⟨msg, he.symm, hnc⟩
    · rw [heq] at he
      simp only [Option.some.injEq] at he
      exact Or.inr ⟨e', he.symm, herr⟩
    · rw [heq] at he; cases he

/-- C9 witness: the tail returns nil on a sample config, and the two sample
failing runs trace back to the parse failure and the client-construction
failure respectively. -/
theorem registerMetrics_infallible_witness :
    (registerMetrics cfgTikvW none).2 = none ∧
    ((∃ msg, RegErr.parse "bad" = RegErr.parse msg ∧
        envParseFailW.parsePath ("tikv://" ++ cfgTikvW.path) = .error msg) ∨
      (∃ msg, RegErr.parse "bad" = RegErr.clientInit msg ∧ ∃ addrs,
        envParseFailW.parsePath ("tikv://" ++ cfgTikvW.path) = .ok addrs ∧
        envParseFailW.newClient addrs
          ⟨cfgTikvW.clusterSSLCA, cfgTikvW.clusterSSLCert, cfgTikvW.clusterSSLKey⟩
          (cfgTikvW.pdServerTimeout * 1000) = .error msg) ∨
      (∃ pe, RegErr.parse "bad" = RegErr.pd pe ∧
        (getKeyspaceMetaTrace envParseFailW.lookup).err = some pe)) ∧
    ((∃ msg, RegErr.clientInit "nc" = RegErr.clientInit msg ∧
        envClientFailW.newClient ["a"] ⟨"", "", ""⟩ 10000 = .error msg) ∨
      (∃ pe, RegErr.clientInit "nc" = RegErr.pd pe ∧
        (getKeyspaceMetaTrace envClientFailW.lookup).err = some pe)) :=
  ⟨registerMetrics_infallible.1 cfgTikvW none,
   registerMetrics_infallible.2.1 cfgTikvW envParseFailW (RegErr.parse "bad")
     (by decide),
   registerMetrics_infallible.2.2 ["a"] "tenant_7" cfgTikvW envClientFailW
     (RegErr.clientInit "nc") (by decide)⟩

/-- Sample environment: everything succeeds but the lookup answers a nil
keyspace meta with no error. -/
def envNilMetaW : Env :=
  ⟨fun _ => .ok ["a"], fun _ _ _ => .ok (), fun _ => .ok none⟩

/-- C10: a lookup succeeding with nil metadata and no error is treated as the
no-keyspace case: both entry points complete successfully and never set a
keyspace label. -/
theorem nil_meta_registers_without_label (cfg : Config) (env : Env)
    (addrs pdAddrs : List String) (keyspaceName : String)
    (h1 : env.lookup 0 = .ok none)
    (h2 : resolutionSkipped cfg = false)
    (h3 : env.parsePath ("tikv://" ++ cfg.path) = .ok addrs)
    (h4 : env.newClient addrs
      ⟨cfg.clusterSSLCA, cfg.clusterSSLCert, cfg.clusterSSLKey⟩
      (cfg.pdServerTimeout * 1000) = .ok ())
    (h5 : IsKeyspaceNameEmpty keyspaceName = false)
    (h6 : env.newClient pdAddrs ⟨"", "", ""⟩ 10000 = .ok ()) :
    getKeyspaceMeta env.lookup = .ok none ∧
    (RegisterMetrics cfg env).2 = none ∧
    (RegisterMetrics cfg env).1.any isLabelEvent = false ∧
    (RegisterMetricsForBR pdAddrs keyspaceName cfg env).2 = none ∧
    (RegisterMetricsForBR pdAddrs keyspaceName cfg env).1.any isLabelEvent
      = false := by
  have hf : loadClosure env.lookup 0 = (false, none, none) := by
    simp [loadClosure, h1]
  have htrace : getKeyspaceMetaTrace env.lookup = ⟨1, 0, none, none⟩ := by
    unfold getKeyspaceMetaTrace DefaultMaxRetries
    exact runWithRetry_success RetryInterval (loadClosure env.lookup) 29 0
      false none hf
  have hA : RegisterMetrics cfg env =
      (Event.newClientOk :: lookupEvents 1 ++ (registerMetrics cfg none).1 ++
        [Event.closeClient], none) := by
    simp [RegisterMetrics, h2, h3, h4, htrace, registerMetrics_snd]
  have hB : RegisterMetricsForBR pdAddrs keyspaceName cfg env =
      (Event.newClientOk :: lookupEvents 1 ++ (registerMetrics cfg none).1 ++
        [Event.closeClient], none) := by
    simp [RegisterMetricsForBR, h5, h6, htrace, registerMetrics_snd]
  have hany : (Event.newClientOk :: lookupEvents 1 ++
      (registerMetrics cfg none).1 ++ [Event.closeClient]).any isLabelEvent
      = false := by
    simp [List.any_cons, List.any_append, isLabelEvent,
      any_isLabelEvent_lookupEvents, any_isLabelEvent_registerMetrics_none cfg]
  refine ⟨by simp [getKeyspaceMeta, htrace], ?_, ?_, ?_, ?_⟩
  · rw [hA]
  · rw [hA]; exact hany
  · rw [hB]
  · rw [hB]; exact hany

/-- C10 witness: a concrete run whose lookup answers nil metadata succeeds in
both entry points with no label event. -/
theorem nil_meta_registers_without_label_witness :
    getKeyspaceMeta envNilMetaW.lookup = .ok none ∧
    (RegisterMetrics cfgTikvW envNilMetaW).2 = none ∧
    (RegisterMetrics cfgTikvW envNilMetaW).1.any isLabelEvent = false ∧
    (RegisterMetricsForBR ["a"] "tenant_7" cfgTikvW envNilMetaW).2 = none ∧
    (RegisterMetricsForBR ["a"] "tenant_7" cfgTikvW envNilMetaW).1.any
      isLabelEvent = false :=
  nil_meta_registers_without_label cfgTikvW envNilMetaW ["a"] ["a"] "tenant_7"
    rfl (by decide) rfl rfl (by decide) rfl

end Metricsutil
